import Mathlib

/-!
Verification of the gscan CLI reporting layer (`src/bin/cli.js`)

A shallow embedding of the result-aggregation and report-rendering pipeline of
the gscan command line tool, together with theorems settling the specification
claims about it.

Modelling conventions:
* JavaScript strings are Lean `String`s (all characters involved are in the
  Basic Multilingual Plane, so JS UTF-16 `length` coincides with `String.length`).
* chalk styling is embedded concretely: each styling function wraps its payload
  in the exact ANSI escape sequences chalk emits, so string lengths (including
  the "invisible" styling characters) match the JS runtime values.
* `ui.log` is modelled as appending one entry to an ordered list of output
  lines; `ui.log.error` appends to a separate stderr list; `process.exit(n)`
  becomes an explicit exit code.
* The external `gscan.format` collaborator is a parameter of type
  `Theme → Options → Except String Theme` (a thrown error is `Except.error`).
-/

/-- The ANSI escape character `\x1b` that introduces every chalk styling code. -/
def escChar : Char := '\x1b'

/-- chalk.red: wraps text in the open/close codes `ESC[31m` / `ESC[39m`. -/
def chalkRed (s : String) : String := "\x1b[31m" ++ s ++ "\x1b[39m"

/-- chalk.yellow: wraps text in `ESC[33m` / `ESC[39m`. -/
def chalkYellow (s : String) : String := "\x1b[33m" ++ s ++ "\x1b[39m"

/-- chalk.green: wraps text in `ESC[32m` / `ESC[39m`. -/
def chalkGreen (s : String) : String := "\x1b[32m" ++ s ++ "\x1b[39m"

/-- chalk.bold: wraps text in `ESC[1m` / `ESC[22m`. -/
def chalkBold (s : String) : String := "\x1b[1m" ++ s ++ "\x1b[22m"

/-- chalk.red.bold: red and bold open codes, then the matching close codes
(9 + 10 = 19 styling characters in total). -/
def chalkRedBold (s : String) : String := "\x1b[31m\x1b[1m" ++ s ++ "\x1b[22m\x1b[39m"

/-- chalk.yellow.bold: yellow and bold open codes, then the close codes
(19 styling characters in total). -/
def chalkYellowBold (s : String) : String := "\x1b[33m\x1b[1m" ++ s ++ "\x1b[22m\x1b[39m"

/-- chalk.cyan.underline, used for the footer links. -/
def chalkCyanUnderline (s : String) : String := "\x1b[36m\x1b[4m" ++ s ++ "\x1b[24m\x1b[39m"

/-- Decimal digit character, as produced by JavaScript number-to-string
conversion (the fallback branch is unreachable for arguments below ten). -/
def digitChar (d : Nat) : Char :=
  match d with
  | 0 => '0'
  | 1 => '1'
  | 2 => '2'
  | 3 => '3'
  | 4 => '4'
  | 5 => '5'
  | 6 => '6'
  | 7 => '7'
  | 8 => '8'
  | 9 => '9'
  | _ => '*'

/-- Fuel-indexed decimal digit list of a natural number (most significant
digit first); `fuel = n + 1` always suffices since `n / 10 < n`. -/
def natCharsCore (fuel n : Nat) : List Char :=
  match fuel with
  | 0 => []
  | fuel + 1 =>
    if n < 10 then [digitChar n]
    else natCharsCore fuel (n / 10) ++ [digitChar (n % 10)]

/-- JavaScript decimal rendering of a natural number (template literal `${n}`). -/
def natStr (n : Nat) : String := ⟨natCharsCore (n + 1) n⟩

/-- The pluralize library call `pluralize(word, n, true)`: the count, a space,
and the word with a plural `s` unless the count is exactly one. -/
def pluralizeCount (word : String) (n : Nat) : String :=
  natStr n ++ " " ++ word ++ (if n = 1 then "" else "s")

/-- lodash `_.repeat(s, n)` (a negative JS count yields the empty string,
matched here by truncated `Nat` subtraction at the call site). -/
def lodashRepeat (s : String) : Nat → String
  | 0 => ""
  | n + 1 => s ++ lodashRepeat s n

/-- Severity levels of gscan findings. -/
inductive Level where
  | error
  | warning
  | recommendation
  | feature
deriving DecidableEq

/-- The JS string value of a severity level. -/
def Level.str : Level → String
  | .error => "error"
  | .warning => "warning"
  | .recommendation => "recommendation"
  | .feature => "feature"

/-- The `levels` style lookup table of cli.js (severity → chalk style). -/
def levels : Level → (String → String)
  | .error => chalkRed
  | .warning => chalkYellow
  | .recommendation => chalkYellow
  | .feature => chalkGreen

/-- lodash `_.capitalize`: first character upper-cased, the rest lower-cased. -/
def capitalize (s : String) : String :=
  match s.data with
  | [] => ""
  | c :: cs => ⟨Char.toUpper c :: cs.map Char.toLower⟩

/-- One failing file reference of a finding (`{ref, message}`). -/
structure FailureRef where
  ref : String
  message : String
deriving DecidableEq

/-- One finding reported by the checker.  `details` is `none` when the JS
object carries no `details` property (template interpolation then renders
the text `undefined`). -/
structure Finding where
  rule : String
  level : Level
  details : Option String
  failures : List FailureRef
deriving DecidableEq

/-- The four severity buckets of a theme result. -/
structure ResultSet where
  error : List Finding
  warning : List Finding
  recommendation : List Finding
  feature : List Finding
deriving DecidableEq

/-- A theme check result as consumed by the reporting layer. -/
structure Theme where
  checkedVersion : String
  results : ResultSet
deriving DecidableEq

/-- The resolved check configuration (the module-level `options` object after
the then-handler ran; the constant `format: 'cli'` field is omitted as it is
only forwarded to the external formatter). -/
structure Options where
  checkVersion : String
  verbose : Bool
  onlyFatalErrors : Bool
deriving DecidableEq

/-- The parsed CLI flags relevant to option resolution (`argv`). -/
structure Argv where
  v1 : Bool
  v2 : Bool
  v3 : Bool
  v4 : Bool
  canary : Bool
  verbose : Bool
  fatal : Bool
deriving DecidableEq

/-- The then-handler of `parseAndExit`: resolves `argv` flags into the
`options` object (cli.js lines 58-74). -/
def resolveOptions (argv : Argv) : Options :=
  { checkVersion :=
      if argv.v1 then "v1"
      else if argv.v2 then "v2"
      else if argv.v3 then "v3"
      else if argv.v4 then "v4"
      else if argv.canary then "canary"
      else "latest"
    verbose := argv.verbose
    onlyFatalErrors := argv.fatal }

/-- The version-flag priority list, in source branch order, paired with the
value each flag resolves to.  Used to state first-match precedence. -/
def versionPrecedence (argv : Argv) : List (Bool × String) :=
  [(argv.v1, "v1"), (argv.v2, "v2"), (argv.v3, "v3"), (argv.v4, "v4"), (argv.canary, "canary")]

/-- The label line of a finding:
`ui.log(levels[result.level]("- " + capitalize(level) + ":"), result.rule)`
(`ui.log` joins its two arguments with one space). -/
def findingLabel (result : Finding) : String :=
  levels result.level ("- " ++ capitalize result.level.str ++ ":") ++ " " ++ result.rule

/-- JS template interpolation of the `details` property (`undefined` text when
the property is missing). -/
def detailsText : Option String → String
  | some d => d
  | none => "undefined"

/-- `outputResult` of cli.js (lines 107-127): the ordered list of lines logged
for one finding.  The module-level `options` object is passed explicitly. -/
def outputResult (opts : Options) (result : Finding) : List String :=
  [findingLabel result]
    ++ (if opts.verbose then [chalkBold "\nDetails:" ++ " " ++ detailsText result.details] else [])
    ++ (if result.failures.length ≠ 0 then
          if opts.verbose then
            [""] ++ [chalkBold "Files:"]
              ++ result.failures.map (fun failure => failure.ref ++ " - " ++ failure.message)
          else
            [chalkBold "Files:" ++ " " ++ String.intercalate "," (result.failures.map FailureRef.ref)]
        else [])
    ++ [""]

/-- The checkmark glyph `✓`. -/
def checkSymbol : String := "✓"

/-- The magic constant of `getSummary`: the number of invisible styling
characters assumed to be present in the non-success summary sentence. -/
def hiddenSymbols : Nat := 38

/-- The non-success summary sentence of `getSummary` (cli.js lines 143-157),
built by successive appends exactly as in the source. -/
def summarySentence (theme : Theme) : String :=
  "Your theme has"
    ++ (if theme.results.error.length ≠ 0 then
          chalkRedBold (" " ++ pluralizeCount "error" theme.results.error.length)
        else "")
    ++ (if theme.results.error.length ≠ 0 ∧ theme.results.warning.length ≠ 0 then " and" else "")
    ++ (if theme.results.warning.length ≠ 0 then
          chalkYellowBold (" " ++ pluralizeCount "warning" theme.results.warning.length)
        else "")
    ++ "!"

/-- `getSummary` of cli.js (lines 129-166). -/
def getSummary (theme : Theme) (opts : Options) : String :=
  let errorCount := theme.results.error.length
  let warnCount := theme.results.warning.length
  if errorCount = 0 ∧ warnCount = 0 then
    if opts.onlyFatalErrors then
      chalkGreen checkSymbol
        ++ " Your theme has no fatal compatibility issues with Ghost " ++ theme.checkedVersion
    else
      chalkGreen checkSymbol
        ++ " Your theme is compatible with Ghost " ++ theme.checkedVersion
  else
    let sentence := summarySentence theme
    sentence ++ "\n" ++ lodashRepeat "-" (sentence.length - hiddenSymbols)

/-- The external `gscan.format` collaborator: may return a (possibly changed)
theme or throw. -/
def FormatFn : Type := Theme → Options → Except String Theme

/-- The format step that returns its input unchanged and never throws. -/
def idFormat : FormatFn := fun theme _ => Except.ok theme

/-- The theme actually used for rendering and for the exit code: the formatted
theme when `gscan.format` returned, the original theme when it threw (the
assignment `theme = gscan.format(theme, options)` never happened). -/
def renderedTheme (fmt : FormatFn) (theme : Theme) (opts : Options) : Theme :=
  match fmt theme opts with
  | .ok t => t
  | .error _ => theme

/-- The fixed warning logged when the format step throws. -/
def formatErrorLine : String := "Error formating result, some results may be missing."

/-- The observable outcome of `outputResults`: stdout lines, stderr lines
(`ui.log.error`), and the `process.exit` code. -/
structure RunOutput where
  stdout : List String
  stderr : List String
  exitCode : Nat
deriving DecidableEq

/-- `outputResults` of cli.js (lines 168-216): formats (tolerating failure),
logs the summary, the three rendered severity sections, the footer links, and
exits 1 exactly when the error bucket is non-empty. -/
def outputResults (fmt : FormatFn) (theme0 : Theme) (opts : Options) : RunOutput :=
  let theme := renderedTheme fmt theme0 opts
  let formatLog : List String :=
    match fmt theme0 opts with
    | .ok _ => []
    | .error err => [formatErrorLine, err]
  let errorCount := theme.results.error.length
  { stdout :=
      ["\n" ++ getSummary theme opts]
        ++ (if theme.results.error.length ≠ 0 then
              [chalkRedBold "\nErrors", chalkRedBold "------",
               chalkRed "Important to fix, functionality may be degraded.\n"]
                ++ (theme.results.error.map (outputResult opts)).flatten
            else [])
        ++ (if theme.results.warning.length ≠ 0 then
              [chalkYellowBold "\nWarnings", chalkYellowBold "--------"]
                ++ (theme.results.warning.map (outputResult opts)).flatten
            else [])
        ++ (if theme.results.recommendation.length ≠ 0 then
              [chalkYellowBold "\nRecommendations", chalkYellowBold "---------------"]
                ++ (theme.results.recommendation.map (outputResult opts)).flatten
            else [])
        ++ ["\nGet more help at "
              ++ chalkCyanUnderline "https://ghost.org/docs/api/handlebars-themes/",
            "You can also check theme compatibility at "
              ++ chalkCyanUnderline "https://gscan.ghost.org/"]
    stderr := formatLog
    exitCode := if errorCount > 0 then 1 else 0 }

/-- A checker-invocation failure (a rejected promise from `gscan.check` or
`gscan.checkZip`): its Node `code` property and its `message`. -/
structure CheckError where
  code : String
  message : String
deriving DecidableEq

/-- The `ENOTDIRPredicate` of cli.js line 91. -/
def ENOTDIRPredicate (err : CheckError) : Bool := err.code == "ENOTDIR"

/-- The corrective hint printed when directory mode was used on a file. -/
def zipHintLine : String := "Did you mean to add the -z flag to read a zip file?"

/-- What one CLI invocation observably does after the checker promise settles. -/
inductive CliOutcome where
  /-- The checker succeeded and a full report was rendered. -/
  | report (out : RunOutput)
  /-- The failure was handled by printing these lines; no report was rendered. -/
  | messages (lines : List String)
  /-- The raw error was surfaced to the user as-is; no report was rendered. -/
  | surfaced (err : CheckError)
deriving DecidableEq

/-- Modelled from the spec: the settled result of the `gscan.check(...)` promise
chain of cli.js lines 89-97.  The gscan library itself (which produces the
promise and its Bluebird-style filtered `.catch(predicate, handler)` dispatch)
is not part of `src/bin/cli.js`; per the spec, a failure matching the
predicate runs the handler (message plus corrective hint), and every other
failure is surfaced to the caller as-is with no report rendered. -/
def runDirectoryMode (checkResult : Except CheckError Theme) (fmt : FormatFn)
    (opts : Options) : CliOutcome :=
  match checkResult with
  | .ok theme => .report (outputResults fmt theme opts)
  | .error err =>
      if ENOTDIRPredicate err then
        .messages [err.message, zipHintLine]
      else
        .surfaced err

/-- Modelled from the spec: the settled result of the `gscan.checkZip(...)`
promise chain of cli.js lines 83-87; the catch handler logs the raw error
object as-is (`ui.log(error)`) and renders no report. -/
def runZipMode (checkResult : Except CheckError Theme) (fmt : FormatFn)
    (opts : Options) : CliOutcome :=
  match checkResult with
  | .ok theme => .report (outputResults fmt theme opts)
  | .error err => .surfaced err

/-!
ANSI stripping

To state claims about the *visible* text of styled strings, we define an ANSI
stripper: outside an escape sequence, characters pass through and `ESC` opens
a sequence; inside a sequence, characters are dropped up to and including the
terminating `m`.  All chalk codes used above have this shape.
-/

/-- Strip ANSI escape sequences from a character list; the flag records
whether we are inside an escape sequence. -/
def stripAnsiAux : Bool → List Char → List Char
  | _, [] => []
  | true, c :: cs => stripAnsiAux (c != 'm') cs
  | false, c :: cs =>
      if c == escChar then stripAnsiAux true cs
      else c :: stripAnsiAux false cs

/-- The in-escape-sequence flag after scanning a character list. -/
def ansiEnd : Bool → List Char → Bool
  | b, [] => b
  | true, c :: cs => ansiEnd (c != 'm') cs
  | false, c :: cs =>
      if c == escChar then ansiEnd true cs
      else ansiEnd false cs

/-- The visible text of a styled string. -/
def stripAnsi (s : String) : String := ⟨stripAnsiAux false s.data⟩

/-- A string containing no `ESC` character at all (hence entirely visible). -/
def CleanStr (s : String) : Prop := ∀ c ∈ s.data, c ≠ escChar

instance (s : String) : Decidable (CleanStr s) :=
  inferInstanceAs (Decidable (∀ c ∈ s.data, c ≠ escChar))

/-- A string whose scan ends outside any escape sequence; stripping then
distributes over appending such a string on the left. -/
def Tidy (s : String) : Prop := ansiEnd false s.data = false

instance (s : String) : Decidable (Tidy s) :=
  inferInstanceAs (Decidable (ansiEnd false s.data = false))

theorem stripAnsiAux_append (a : List Char) :
    ∀ (s : Bool) (b : List Char),
      stripAnsiAux s (a ++ b) = stripAnsiAux s a ++ stripAnsiAux (ansiEnd s a) b := by
  induction a with
  | nil => intro s b; cases s <;> simp [stripAnsiAux, ansiEnd]
  | cons c cs ih =>
      intro s b
      cases s with
      | true => simp [stripAnsiAux, ansiEnd, ih]
      | false =>
          by_cases h : c == escChar
          · simp [stripAnsiAux, ansiEnd, h, ih]
          · simp [stripAnsiAux, ansiEnd, h, ih]

theorem ansiEnd_append (a : List Char) :
    ∀ (s : Bool) (b : List Char), ansiEnd s (a ++ b) = ansiEnd (ansiEnd s a) b := by
  induction a with
  | nil => intro s b; cases s <;> simp [ansiEnd]
  | cons c cs ih =>
      intro s b
      cases s with
      | true => simp [ansiEnd, ih]
      | false =>
          by_cases h : c == escChar
          · simp [ansiEnd, h, ih]
          · simp [ansiEnd, h, ih]

theorem stripAnsiAux_of_clean (l : List Char) (h : ∀ c ∈ l, c ≠ escChar) :
    stripAnsiAux false l = l := by
  induction l with
  | nil => rfl
  | cons c cs ih =>
      have hc : (c == escChar) = false := by
        simpa using h c (by simp)
      simp [stripAnsiAux, hc, ih (fun x hx => h x (by simp [hx]))]

theorem ansiEnd_of_clean (l : List Char) (h : ∀ c ∈ l, c ≠ escChar) :
    ansiEnd false l = false := by
  induction l with
  | nil => rfl
  | cons c cs ih =>
      have hc : (c == escChar) = false := by
        simpa using h c (by simp)
      simp [ansiEnd, hc, ih (fun x hx => h x (by simp [hx]))]

theorem stripAnsi_append (a b : String) (h : Tidy a) :
    stripAnsi (a ++ b) = stripAnsi a ++ stripAnsi b := by
  have hh : ansiEnd false a.data = false := h
  apply String.ext
  simp [stripAnsi, String.data_append, stripAnsiAux_append, hh]

theorem tidy_append (a b : String) (ha : Tidy a) (hb : Tidy b) : Tidy (a ++ b) := by
  unfold Tidy at *
  simp [String.data_append, ansiEnd_append, ha, hb]

theorem stripAnsi_of_clean (s : String) (h : CleanStr s) : stripAnsi s = s := by
  apply String.ext
  simpa [stripAnsi] using stripAnsiAux_of_clean s.data h

theorem tidy_of_clean (s : String) (h : CleanStr s) : Tidy s :=
  ansiEnd_of_clean s.data h

theorem cleanStr_append (a b : String) (ha : CleanStr a) (hb : CleanStr b) :
    CleanStr (a ++ b) := by
  intro c hc
  rw [String.data_append] at hc
  rcases List.mem_append.mp hc with h | h
  · exact ha c h
  · exact hb c h

theorem stripAnsi_wrap (op cl s : String)
    (hop1 : stripAnsiAux false op.data = []) (hop2 : ansiEnd false op.data = false)
    (hcl1 : stripAnsiAux false cl.data = []) (hcl2 : ansiEnd false cl.data = false)
    (hs : CleanStr s) :
    stripAnsi (op ++ s ++ cl) = s ∧ Tidy (op ++ s ++ cl) := by
  have hts : Tidy s := tidy_of_clean s hs
  have htop : Tidy op := hop2
  have htcl : Tidy cl := hcl2
  constructor
  · rw [stripAnsi_append _ _ (tidy_append _ _ htop hts),
      stripAnsi_append _ _ htop, stripAnsi_of_clean s hs]
    have h1 : stripAnsi op = "" := String.ext hop1
    have h2 : stripAnsi cl = "" := String.ext hcl1
    rw [h1, h2]
    apply String.ext
    simp [String.data_append]
  · exact tidy_append _ _ (tidy_append _ _ htop hts) htcl

theorem stripAnsi_chalkRedBold (s : String) (hs : CleanStr s) :
    stripAnsi (chalkRedBold s) = s :=
  (stripAnsi_wrap _ _ s (by decide) (by decide) (by decide) (by decide) hs).1

theorem tidy_chalkRedBold (s : String) (hs : CleanStr s) : Tidy (chalkRedBold s) :=
  (stripAnsi_wrap _ _ s (by decide) (by decide) (by decide) (by decide) hs).2

theorem stripAnsi_chalkYellowBold (s : String) (hs : CleanStr s) :
    stripAnsi (chalkYellowBold s) = s :=
  (stripAnsi_wrap _ _ s (by decide) (by decide) (by decide) (by decide) hs).1

theorem tidy_chalkYellowBold (s : String) (hs : CleanStr s) : Tidy (chalkYellowBold s) :=
  (stripAnsi_wrap _ _ s (by decide) (by decide) (by decide) (by decide) hs).2

theorem stripAnsi_chalkGreen (s : String) (hs : CleanStr s) :
    stripAnsi (chalkGreen s) = s :=
  (stripAnsi_wrap _ _ s (by decide) (by decide) (by decide) (by decide) hs).1

theorem tidy_chalkGreen (s : String) (hs : CleanStr s) : Tidy (chalkGreen s) :=
  (stripAnsi_wrap _ _ s (by decide) (by decide) (by decide) (by decide) hs).2

theorem digitChar_ne_esc (d : Nat) : digitChar d ≠ escChar := by
  unfold digitChar
  split <;> decide

theorem natCharsCore_ne_esc :
    ∀ (fuel n : Nat), ∀ c ∈ natCharsCore fuel n, c ≠ escChar := by
  intro fuel
  induction fuel with
  | zero => intro n c hc; simp [natCharsCore] at hc
  | succ f ih =>
      intro n c hc
      unfold natCharsCore at hc
      by_cases h : n < 10
      · rw [if_pos h] at hc
        simp at hc
        subst hc
        exact digitChar_ne_esc n
      · rw [if_neg h] at hc
        rcases List.mem_append.mp hc with h1 | h1
        · exact ih (n / 10) c h1
        · simp at h1
          subst h1
          exact digitChar_ne_esc (n % 10)

theorem cleanStr_natStr (n : Nat) : CleanStr (natStr n) := by
  intro c hc
  exact natCharsCore_ne_esc (n + 1) n c hc

theorem cleanStr_pluralizeCount (word : String) (hw : CleanStr word) (n : Nat) :
    CleanStr (pluralizeCount word n) := by
  unfold pluralizeCount
  apply cleanStr_append
  apply cleanStr_append
  apply cleanStr_append
  · exact cleanStr_natStr n
  · decide
  · exact hw
  · by_cases h : n = 1 <;> simp [h] <;> decide

theorem natStr_length_pos (n : Nat) : 1 ≤ (natStr n).length := by
  show 1 ≤ (natCharsCore (n + 1) n).length
  unfold natCharsCore
  split <;> simp

theorem lodashRepeat_length (s : String) : ∀ n, (lodashRepeat s n).length = n * s.length := by
  intro n
  induction n with
  | zero => rw [Nat.zero_mul]; rfl
  | succ k ih =>
      show (s ++ lodashRepeat s k).length = _
      rw [String.length_append, ih, Nat.succ_mul]
      omega

theorem lodashRepeat_dash_chars :
    ∀ n, ∀ c ∈ (lodashRepeat "-" n).data, c = '-' := by
  intro n
  induction n with
  | zero => intro c hc; simp [lodashRepeat] at hc
  | succ k ih =>
      intro c hc
      have : (lodashRepeat "-" (k + 1)).data = ("-" : String).data ++ (lodashRepeat "-" k).data := by
        show (("-" : String) ++ lodashRepeat "-" k).data = _
        rw [String.data_append]
      rw [this] at hc
      rcases List.mem_append.mp hc with h1 | h1
      · simp at h1
        exact h1
      · exact ih c h1

theorem chalkRedBold_length (s : String) : (chalkRedBold s).length = s.length + 19 := by
  have h1 : ("\x1b[31m\x1b[1m" : String).length = 9 := by decide
  have h2 : ("\x1b[22m\x1b[39m" : String).length = 10 := by decide
  unfold chalkRedBold
  rw [String.length_append, String.length_append, h1, h2]
  omega

theorem chalkYellowBold_length (s : String) : (chalkYellowBold s).length = s.length + 19 := by
  have h1 : ("\x1b[33m\x1b[1m" : String).length = 9 := by decide
  have h2 : ("\x1b[22m\x1b[39m" : String).length = 10 := by decide
  unfold chalkYellowBold
  rw [String.length_append, String.length_append, h1, h2]
  omega

theorem space_pluralize_error (n : Nat) :
    " " ++ pluralizeCount "error" n
      = " " ++ natStr n ++ " error" ++ (if n = 1 then "" else "s") := by
  apply String.ext
  by_cases h : n = 1 <;>
    simp [pluralizeCount, String.data_append, h, List.append_assoc]

theorem space_pluralize_warning (n : Nat) :
    " " ++ pluralizeCount "warning" n
      = " " ++ natStr n ++ " warning" ++ (if n = 1 then "" else "s") := by
  apply String.ext
  by_cases h : n = 1 <;>
    simp [pluralizeCount, String.data_append, h, List.append_assoc]

/-- The visible (style-stripped) text of the non-success summary sentence. -/
theorem stripAnsi_summarySentence (theme : Theme) :
    stripAnsi (summarySentence theme)
      = "Your theme has"
          ++ (if theme.results.error.length ≠ 0 then
                " " ++ pluralizeCount "error" theme.results.error.length
              else "")
          ++ (if theme.results.error.length ≠ 0 ∧ theme.results.warning.length ≠ 0 then " and"
              else "")
          ++ (if theme.results.warning.length ≠ 0 then
                " " ++ pluralizeCount "warning" theme.results.warning.length
              else "")
          ++ "!" := by
  have cleanE : CleanStr (" " ++ pluralizeCount "error" theme.results.error.length) :=
    cleanStr_append _ _ (by decide)
      (cleanStr_pluralizeCount "error" (by decide) theme.results.error.length)
  have cleanW : CleanStr (" " ++ pluralizeCount "warning" theme.results.warning.length) :=
    cleanStr_append _ _ (by decide)
      (cleanStr_pluralizeCount "warning" (by decide) theme.results.warning.length)
  have hA : stripAnsi (if theme.results.error.length ≠ 0 then
        chalkRedBold (" " ++ pluralizeCount "error" theme.results.error.length) else "")
      = (if theme.results.error.length ≠ 0 then
          " " ++ pluralizeCount "error" theme.results.error.length else "") := by
    split
    · exact stripAnsi_chalkRedBold _ cleanE
    · decide
  have tA : Tidy (if theme.results.error.length ≠ 0 then
      chalkRedBold (" " ++ pluralizeCount "error" theme.results.error.length) else "") := by
    split
    · exact tidy_chalkRedBold _ cleanE
    · decide
  have hB : stripAnsi (if theme.results.error.length ≠ 0 ∧ theme.results.warning.length ≠ 0
        then " and" else "")
      = (if theme.results.error.length ≠ 0 ∧ theme.results.warning.length ≠ 0
        then " and" else "") := by
    split <;> decide
  have tB : Tidy (if theme.results.error.length ≠ 0 ∧ theme.results.warning.length ≠ 0
      then " and" else "") := by
    split <;> decide
  have hC : stripAnsi (if theme.results.warning.length ≠ 0 then
        chalkYellowBold (" " ++ pluralizeCount "warning" theme.results.warning.length) else "")
      = (if theme.results.warning.length ≠ 0 then
          " " ++ pluralizeCount "warning" theme.results.warning.length else "") := by
    split
    · exact stripAnsi_chalkYellowBold _ cleanW
    · decide
  have tC : Tidy (if theme.results.warning.length ≠ 0 then
      chalkYellowBold (" " ++ pluralizeCount "warning" theme.results.warning.length) else "") := by
    split
    · exact tidy_chalkYellowBold _ cleanW
    · decide
  have t0 : Tidy ("Your theme has" : String) := by decide
  unfold summarySentence
  rw [stripAnsi_append _ "!" (tidy_append _ _ (tidy_append _ _ (tidy_append _ _ t0 tA) tB) tC),
    stripAnsi_append _ _ (tidy_append _ _ (tidy_append _ _ t0 tA) tB),
    stripAnsi_append _ _ (tidy_append _ _ t0 tA),
    stripAnsi_append _ _ t0, hA, hB, hC]
  have s0 : stripAnsi "Your theme has" = "Your theme has" := by decide
  have s1 : stripAnsi "!" = "!" := by decide
  rw [s0, s1]

theorem pluralizeCount_length_ge (word : String) (n : Nat) :
    word.length + 2 ≤ (pluralizeCount word n).length := by
  unfold pluralizeCount
  have hn := natStr_length_pos n
  have l1 : (" " : String).length = 1 := by decide
  simp only [String.length_append]
  rw [l1]
  omega

/-- The raw (styled) non-success summary sentence is at least `hiddenSymbols`
characters long, so the truncated subtraction in `getSummary` is exact. -/
theorem summarySentence_length_ge (theme : Theme)
    (h : theme.results.error.length ≠ 0 ∨ theme.results.warning.length ≠ 0) :
    38 ≤ (summarySentence theme).length := by
  have hplE := pluralizeCount_length_ge "error" theme.results.error.length
  have hplW := pluralizeCount_length_ge "warning" theme.results.warning.length
  have lE : ("error" : String).length = 5 := by decide
  have lW : ("warning" : String).length = 7 := by decide
  rw [lE] at hplE
  rw [lW] at hplW
  have l0 : ("Your theme has" : String).length = 14 := by decide
  have l1 : ("!" : String).length = 1 := by decide
  have l2 : (" and" : String).length = 4 := by decide
  have l3 : ("" : String).length = 0 := by decide
  have l4 : (" " : String).length = 1 := by decide
  by_cases he : theme.results.error.length = 0 <;>
    by_cases hw : theme.results.warning.length = 0
  · rcases h with h | h
    · exact absurd he h
    · exact absurd hw h
  all_goals
    simp only [summarySentence, he, hw, ne_eq, not_true_eq_false, not_false_eq_true,
      if_true, if_false, and_true, and_false, true_and, false_and,
      ite_true, ite_false, String.length_append,
      chalkRedBold_length, chalkYellowBold_length]
  all_goals (rw [l0, l1]; try rw [l2])
  all_goals try rw [l3]
  all_goals try rw [l4]
  all_goals omega

/-!
Concrete sample data for witnesses
-/

def sampleFailure1 : FailureRef := ⟨"default.hbs", "Missing helper"⟩

def sampleFailure2 : FailureRef := ⟨"post.hbs", "Deprecated helper"⟩

def sampleErrorFinding : Finding :=
  ⟨"GS001-DEPR-PURL", Level.error, some "Replace this helper", [sampleFailure1]⟩

def sampleWarningFinding : Finding :=
  ⟨"GS030-ASSET-REQ", Level.warning, none, [sampleFailure1, sampleFailure2]⟩

def emptyFinding : Finding := ⟨"GS005-TPL-ERR", Level.error, none, []⟩

def sampleOpts : Options := ⟨"latest", false, false⟩

def sampleVerboseOpts : Options := ⟨"latest", true, false⟩

def sampleTheme : Theme := ⟨"4.2", ⟨[sampleErrorFinding], [], [], []⟩⟩

def cleanTheme : Theme := ⟨"4.2", ⟨[], [], [], []⟩⟩

def theme23 : Theme :=
  ⟨"4.2", ⟨[sampleErrorFinding, emptyFinding],
    [sampleWarningFinding, sampleWarningFinding, sampleWarningFinding], [], []⟩⟩

def failingFormat : FormatFn := fun _ _ => Except.error "boom"

/-!
Claims
-/

/-- C1: For every `ThemeResult` passed through `outputResults`, the process
exit code is 1 if and only if the error bucket of the result used for
rendering is non-empty, and is 0 exactly when that error bucket is empty —
independently of warnings, recommendations, and features (the statement
quantifies over all themes, hence over all contents of the other buckets). -/
theorem claim1_exit_code_policy (fmt : FormatFn) (theme : Theme) (opts : Options) :
    ((outputResults fmt theme opts).exitCode = 1
        ↔ (renderedTheme fmt theme opts).results.error ≠ [])
      ∧ ((outputResults fmt theme opts).exitCode = 0
        ↔ (renderedTheme fmt theme opts).results.error = []) := by
  have hx : (outputResults fmt theme opts).exitCode
      = if (renderedTheme fmt theme opts).results.error.length > 0 then 1 else 0 := rfl
  rw [hx]
  by_cases h : (renderedTheme fmt theme opts).results.error = []
  · simp [h]
  · have hp : (renderedTheme fmt theme opts).results.error.length > 0 :=
      List.length_pos.mpr h
    simp [h, hp]

/-- C2: a directory-mode checker failure with code ENOTDIR prints the error
message followed by the corrective `-z` hint and renders no report; every
other failure, in either mode, is surfaced raw with no report rendered. -/
theorem claim2_invoker_failure_policy (err : CheckError) (fmt : FormatFn) (opts : Options) :
    (err.code = "ENOTDIR" →
        runDirectoryMode (Except.error err) fmt opts
          = CliOutcome.messages [err.message, zipHintLine])
      ∧ (err.code ≠ "ENOTDIR" →
        runDirectoryMode (Except.error err) fmt opts = CliOutcome.surfaced err)
      ∧ runZipMode (Except.error err) fmt opts = CliOutcome.surfaced err
      ∧ ∀ out : RunOutput, runDirectoryMode (Except.error err) fmt opts ≠ CliOutcome.report out := by
  refine ⟨?_, ?_, rfl, ?_⟩
  · intro h
    simp [runDirectoryMode, ENOTDIRPredicate, h]
  · intro h
    simp [runDirectoryMode, ENOTDIRPredicate, h]
  · intro out
    by_cases h : err.code = "ENOTDIR" <;> simp [runDirectoryMode, ENOTDIRPredicate, h]

theorem claim2_witness :
    ((⟨"ENOTDIR", "ENOTDIR: not a directory"⟩ : CheckError).code = "ENOTDIR"
      ∧ runDirectoryMode (Except.error ⟨"ENOTDIR", "ENOTDIR: not a directory"⟩) idFormat sampleOpts
          = CliOutcome.messages ["ENOTDIR: not a directory", zipHintLine])
    ∧ ((⟨"EACCES", "permission denied"⟩ : CheckError).code ≠ "ENOTDIR"
      ∧ runDirectoryMode (Except.error ⟨"EACCES", "permission denied"⟩) idFormat sampleOpts
          = CliOutcome.surfaced ⟨"EACCES", "permission denied"⟩) :=
  ⟨⟨rfl,
    (claim2_invoker_failure_policy ⟨"ENOTDIR", "ENOTDIR: not a directory"⟩ idFormat
      sampleOpts).1 rfl⟩,
   ⟨by decide,
    (claim2_invoker_failure_policy ⟨"EACCES", "permission denied"⟩ idFormat
      sampleOpts).2.1 (by decide)⟩⟩

/-- C3: if the format step throws, `outputResults` logs exactly two error
lines (the fixed warning, then the thrown error), still renders the full
report from the original unformatted theme, and computes the exit code from
that original theme (the run equals a run with a format step that returns the
input unchanged, except for the two stderr lines). -/
theorem claim3_format_failure_resilience (fmt : FormatFn) (theme : Theme) (opts : Options)
    (msg : String) (hf : fmt theme opts = Except.error msg) :
    outputResults fmt theme opts =
      { stdout := (outputResults idFormat theme opts).stdout
        stderr := [formatErrorLine, msg]
        exitCode := (outputResults idFormat theme opts).exitCode } := by
  simp [outputResults, renderedTheme, idFormat, hf]

theorem claim3_witness :
    failingFormat sampleTheme sampleOpts = Except.error "boom"
      ∧ outputResults failingFormat sampleTheme sampleOpts =
          { stdout := (outputResults idFormat sampleTheme sampleOpts).stdout
            stderr := [formatErrorLine, "boom"]
            exitCode := (outputResults idFormat sampleTheme sampleOpts).exitCode } :=
  ⟨rfl, claim3_format_failure_resilience failingFormat sampleTheme sampleOpts "boom" rfl⟩

/-- In the non-success case `getSummary` is the sentence, a newline, and the
dash underline sized by the raw sentence length minus `hiddenSymbols`. -/
theorem getSummary_nonsuccess (theme : Theme) (opts : Options)
    (h : theme.results.error.length ≠ 0 ∨ theme.results.warning.length ≠ 0) :
    getSummary theme opts
      = summarySentence theme ++ "\n"
          ++ lodashRepeat "-" ((summarySentence theme).length - hiddenSymbols) := by
  have hcond : ¬(theme.results.error.length = 0 ∧ theme.results.warning.length = 0) := by
    rcases h with h | h
    · exact fun hc => h hc.1
    · exact fun hc => h hc.2
  simp only [getSummary]
  rw [if_neg hcond]

/-- C4: in the non-success case, the appended underline consists of `'-'`
characters and its length is exactly the raw (styled) summary sentence length
minus the constant 38, a genuine subtraction since that length is at least 38. -/
theorem claim4_underline_length (theme : Theme) (opts : Options)
    (h : theme.results.error.length ≠ 0 ∨ theme.results.warning.length ≠ 0) :
    getSummary theme opts
        = summarySentence theme ++ "\n"
            ++ lodashRepeat "-" ((summarySentence theme).length - hiddenSymbols)
      ∧ (lodashRepeat "-" ((summarySentence theme).length - hiddenSymbols)).length
          = (summarySentence theme).length - 38
      ∧ 38 ≤ (summarySentence theme).length
      ∧ ∀ c ∈ (lodashRepeat "-" ((summarySentence theme).length - hiddenSymbols)).data,
          c = '-' := by
  refine ⟨getSummary_nonsuccess theme opts h, ?_,
    summarySentence_length_ge theme h, lodashRepeat_dash_chars _⟩
  rw [lodashRepeat_length]
  have h1 : ("-" : String).length = 1 := by decide
  rw [h1, Nat.mul_one]
  rfl

theorem claim4_witness :
    (sampleTheme.results.error.length ≠ 0 ∨ sampleTheme.results.warning.length ≠ 0)
      ∧ (getSummary sampleTheme sampleOpts
            = summarySentence sampleTheme ++ "\n"
                ++ lodashRepeat "-" ((summarySentence sampleTheme).length - hiddenSymbols)
          ∧ (lodashRepeat "-" ((summarySentence sampleTheme).length - hiddenSymbols)).length
              = (summarySentence sampleTheme).length - 38
          ∧ 38 ≤ (summarySentence sampleTheme).length
          ∧ ∀ c ∈ (lodashRepeat "-" ((summarySentence sampleTheme).length - hiddenSymbols)).data,
              c = '-') :=
  ⟨Or.inl (by decide), claim4_underline_length sampleTheme sampleOpts (Or.inl (by decide))⟩

/-- C6: stripped of styling, the non-success summary sentence reads
"Your theme has", then a pluralized error count phrase exactly when the error
bucket is non-empty, then the word "and" exactly when both buckets are
non-empty, then a pluralized warning count phrase exactly when the warning
bucket is non-empty, then "!". -/
theorem claim6_summary_sentence_structure (theme : Theme)
    (h : theme.results.error.length ≠ 0 ∨ theme.results.warning.length ≠ 0) :
    stripAnsi (summarySentence theme)
      = "Your theme has"
          ++ (if theme.results.error.length ≠ 0 then
                " " ++ natStr theme.results.error.length ++ " error"
                  ++ (if theme.results.error.length = 1 then "" else "s")
              else "")
          ++ (if theme.results.error.length ≠ 0 ∧ theme.results.warning.length ≠ 0 then " and"
              else "")
          ++ (if theme.results.warning.length ≠ 0 then
                " " ++ natStr theme.results.warning.length ++ " warning"
                  ++ (if theme.results.warning.length = 1 then "" else "s")
              else "")
          ++ "!" := by
  rw [stripAnsi_summarySentence theme, space_pluralize_error, space_pluralize_warning]

theorem claim6_witness :
    (theme23.results.error.length ≠ 0 ∨ theme23.results.warning.length ≠ 0)
      ∧ stripAnsi (summarySentence theme23) = "Your theme has 2 errors and 3 warnings!" :=
  ⟨Or.inl (by decide),
    (claim6_summary_sentence_structure theme23 (Or.inl (by decide))).trans (by decide)⟩

/-- C10: when exactly one of the two counted buckets is non-empty, the raw
sentence carries only 19 invisible styling characters, yet `getSummary` still
subtracts 38, so the emitted underline is exactly 19 characters shorter than
the visible (style-stripped) summary line. -/
theorem claim10_underline_visible_gap (theme : Theme) (opts : Options)
    (h : (theme.results.error.length ≠ 0 ∧ theme.results.warning.length = 0)
        ∨ (theme.results.error.length = 0 ∧ theme.results.warning.length ≠ 0)) :
    (summarySentence theme).length = (stripAnsi (summarySentence theme)).length + 19
      ∧ getSummary theme opts
        = summarySentence theme ++ "\n"
            ++ lodashRepeat "-" ((summarySentence theme).length - hiddenSymbols)
      ∧ (lodashRepeat "-" ((summarySentence theme).length - hiddenSymbols)).length + 19
        = (stripAnsi (summarySentence theme)).length := by
  have hor : theme.results.error.length ≠ 0 ∨ theme.results.warning.length ≠ 0 := by
    rcases h with ⟨h1, _⟩ | ⟨_, h2⟩
    · exact Or.inl h1
    · exact Or.inr h2
  have hge := summarySentence_length_ge theme hor
  have l0 : ("Your theme has" : String).length = 14 := by decide
  have l1 : ("!" : String).length = 1 := by decide
  have l3 : ("" : String).length = 0 := by decide
  have l4 : (" " : String).length = 1 := by decide
  have hgap : (summarySentence theme).length
      = (stripAnsi (summarySentence theme)).length + 19 := by
    rw [stripAnsi_summarySentence theme]
    rcases h with ⟨h1, h2⟩ | ⟨h1, h2⟩ <;>
      simp only [summarySentence, h1, h2, ne_eq, not_true_eq_false, not_false_eq_true,
        if_true, if_false, and_true, and_false, true_and, false_and,
        ite_true, ite_false, String.length_append,
        chalkRedBold_length, chalkYellowBold_length] <;>
      rw [l0, l1, l3, l4] <;> omega
  refine ⟨hgap, getSummary_nonsuccess theme opts hor, ?_⟩
  rw [lodashRepeat_length]
  have hd : ("-" : String).length = 1 := by decide
  have hh : hiddenSymbols = 38 := rfl
  rw [hd, Nat.mul_one, hh]
  omega

theorem claim10_witness :
    ((sampleTheme.results.error.length ≠ 0 ∧ sampleTheme.results.warning.length = 0)
        ∨ (sampleTheme.results.error.length = 0 ∧ sampleTheme.results.warning.length ≠ 0))
      ∧ ((summarySentence sampleTheme).length
            = (stripAnsi (summarySentence sampleTheme)).length + 19
        ∧ getSummary sampleTheme sampleOpts
            = summarySentence sampleTheme ++ "\n"
                ++ lodashRepeat "-" ((summarySentence sampleTheme).length - hiddenSymbols)
        ∧ (lodashRepeat "-" ((summarySentence sampleTheme).length - hiddenSymbols)).length + 19
            = (stripAnsi (summarySentence sampleTheme)).length) :=
  ⟨Or.inl ⟨by decide, by decide⟩,
    claim10_underline_visible_gap sampleTheme sampleOpts (Or.inl ⟨by decide, by decide⟩)⟩

/-- C5: the resolved check version obeys first-match precedence
v1 > v2 > v3 > v4 > canary and defaults to latest when no flag is set; in
particular the flag set with both v1 and v3 resolves to v1. -/
theorem claim5_version_flag_precedence :
    (∀ argv : Argv,
        (resolveOptions argv).checkVersion
          = (((versionPrecedence argv).find? (fun p => p.1)).map (fun p => p.2)).getD "latest")
      ∧ (resolveOptions ⟨true, false, true, false, false, false, false⟩).checkVersion = "v1" := by
  constructor
  · intro argv
    obtain ⟨a, b, c, d, e, f, g⟩ := argv
    cases a <;> cases b <;> cases c <;> cases d <;> cases e <;> rfl
  · rfl

/-- C7: with empty error and warning buckets, `getSummary` is a single line
(no newline, hence no underline) containing the checkmark glyph, ending in the
checked version, and its visible text is the success wording selected by
`onlyFatalErrors`. -/
theorem claim7_success_summary (theme : Theme) (opts : Options)
    (he : theme.results.error.length = 0) (hw : theme.results.warning.length = 0)
    (hnl : '\n' ∉ theme.checkedVersion.data) (hclean : CleanStr theme.checkedVersion) :
    '\n' ∉ (getSummary theme opts).data
      ∧ '✓' ∈ (getSummary theme opts).data
      ∧ (∃ p : String, getSummary theme opts = p ++ theme.checkedVersion)
      ∧ stripAnsi (getSummary theme opts)
        = checkSymbol
            ++ (if opts.onlyFatalErrors then
                  " Your theme has no fatal compatibility issues with Ghost "
                else " Your theme is compatible with Ghost ")
            ++ theme.checkedVersion := by
  have hsum : getSummary theme opts
      = chalkGreen checkSymbol
          ++ (if opts.onlyFatalErrors then
                " Your theme has no fatal compatibility issues with Ghost "
              else " Your theme is compatible with Ghost ")
          ++ theme.checkedVersion := by
    simp only [getSummary]
    rw [if_pos ⟨he, hw⟩]
    by_cases hf : opts.onlyFatalErrors <;> simp [hf]
  have hdata : (getSummary theme opts).data
      = (chalkGreen checkSymbol
          ++ (if opts.onlyFatalErrors then
                " Your theme has no fatal compatibility issues with Ghost "
              else " Your theme is compatible with Ghost ")).data
        ++ theme.checkedVersion.data := by
    rw [hsum, String.data_append]
  refine ⟨?_, ?_, ⟨_, hsum⟩, ?_⟩
  · rw [hdata]
    intro hc
    rcases List.mem_append.mp hc with hc | hc
    · by_cases hf : opts.onlyFatalErrors
      · rw [if_pos hf] at hc
        revert hc
        decide
      · rw [if_neg hf] at hc
        revert hc
        decide
    · exact hnl hc
  · rw [hdata]
    apply List.mem_append.mpr
    left
    by_cases hf : opts.onlyFatalErrors
    · rw [if_pos hf]
      decide
    · rw [if_neg hf]
      decide
  · rw [hsum]
    have ht : Tidy (chalkGreen checkSymbol
        ++ (if opts.onlyFatalErrors then
              " Your theme has no fatal compatibility issues with Ghost "
            else " Your theme is compatible with Ghost ")) := by
      by_cases hf : opts.onlyFatalErrors
      · rw [if_pos hf]
        decide
      · rw [if_neg hf]
        decide
    rw [stripAnsi_append _ _ ht, stripAnsi_of_clean _ hclean]
    by_cases hf : opts.onlyFatalErrors
    · rw [if_pos hf]
      have hs : stripAnsi (chalkGreen checkSymbol
          ++ " Your theme has no fatal compatibility issues with Ghost ")
          = checkSymbol ++ " Your theme has no fatal compatibility issues with Ghost " := by
        decide
      rw [hs]
    · rw [if_neg hf]
      have hs : stripAnsi (chalkGreen checkSymbol
          ++ " Your theme is compatible with Ghost ")
          = checkSymbol ++ " Your theme is compatible with Ghost " := by
        decide
      rw [hs]

theorem claim7_witness :
    (cleanTheme.results.error.length = 0 ∧ cleanTheme.results.warning.length = 0
        ∧ '\n' ∉ cleanTheme.checkedVersion.data ∧ CleanStr cleanTheme.checkedVersion)
      ∧ ('\n' ∉ (getSummary cleanTheme sampleOpts).data
        ∧ '✓' ∈ (getSummary cleanTheme sampleOpts).data
        ∧ (∃ p : String, getSummary cleanTheme sampleOpts = p ++ cleanTheme.checkedVersion)
        ∧ stripAnsi (getSummary cleanTheme sampleOpts)
          = checkSymbol
              ++ (if sampleOpts.onlyFatalErrors then
                    " Your theme has no fatal compatibility issues with Ghost "
                  else " Your theme is compatible with Ghost ")
              ++ cleanTheme.checkedVersion) :=
  ⟨⟨rfl, rfl, by decide, by decide⟩,
    claim7_success_summary cleanTheme sampleOpts rfl rfl (by decide) (by decide)⟩

/-- C8: for a finding with failures, compact mode emits exactly the label
line, one "Files:" line with the refs comma-joined (no messages), and the
trailing blank line; verbose mode emits the label line, the details line, a
spacer, the "Files:" header, then exactly one `ref - message` line per
failure in order, and the trailing blank line. -/
theorem claim8_files_rendering (opts : Options) (result : Finding)
    (hf : result.failures ≠ []) :
    (opts.verbose = false →
        outputResult opts result =
          [findingLabel result,
           chalkBold "Files:" ++ " "
             ++ String.intercalate "," (result.failures.map FailureRef.ref),
           ""])
      ∧ (opts.verbose = true →
        outputResult opts result =
          [findingLabel result,
           chalkBold "\nDetails:" ++ " " ++ detailsText result.details,
           "",
           chalkBold "Files:"]
            ++ result.failures.map (fun failure => failure.ref ++ " - " ++ failure.message)
            ++ [""]) := by
  have hlen : result.failures.length ≠ 0 := by
    simpa using fun hx => hf (List.length_eq_zero.mp hx)
  constructor <;> intro hv <;> simp [outputResult, hv, hlen]

theorem claim8_witness :
    sampleWarningFinding.failures ≠ []
      ∧ outputResult sampleOpts sampleWarningFinding =
          [findingLabel sampleWarningFinding,
           chalkBold "Files:" ++ " "
             ++ String.intercalate "," (sampleWarningFinding.failures.map FailureRef.ref),
           ""]
      ∧ outputResult sampleVerboseOpts sampleWarningFinding =
          [findingLabel sampleWarningFinding,
           chalkBold "\nDetails:" ++ " " ++ detailsText sampleWarningFinding.details,
           "",
           chalkBold "Files:"]
            ++ sampleWarningFinding.failures.map
                (fun failure => failure.ref ++ " - " ++ failure.message)
            ++ [""] :=
  ⟨by decide,
    (claim8_files_rendering sampleOpts sampleWarningFinding (by decide)).1 rfl,
    (claim8_files_rendering sampleVerboseOpts sampleWarningFinding (by decide)).2 rfl⟩

/-- C9 as stated is false: in verbose mode a finding with no details and no
failures does not render as just the label line plus the trailing blank line,
because the details line is emitted unconditionally (showing `undefined`). -/
theorem claim9_counterexample :
    outputResult sampleVerboseOpts emptyFinding ≠ [findingLabel emptyFinding, ""] := by
  decide

/-- C9 amended: a finding with no details and no failures renders as just the
label line plus the trailing blank line in compact (non-verbose) mode; in
verbose mode one additional details line (showing `undefined`) is emitted
between them.  Rendering is total, and every finding's output, in either
mode, ends with the trailing blank line. -/
theorem claim9_minimal_finding_rendering (opts : Options) (result : Finding)
    (hd : result.details = none) (hf : result.failures = []) :
    (opts.verbose = false → outputResult opts result = [findingLabel result, ""])
      ∧ (opts.verbose = true →
        outputResult opts result =
          [findingLabel result, chalkBold "\nDetails:" ++ " " ++ "undefined", ""])
      ∧ ∀ (o : Options) (r : Finding), (outputResult o r).getLast? = some "" := by
  refine ⟨?_, ?_, ?_⟩
  · intro hv
    simp [outputResult, hv, hf]
  · intro hv
    simp [outputResult, hv, hd, hf, detailsText]
  · intro o r
    exact List.getLast?_concat _

theorem claim9_witness :
    (emptyFinding.details = none ∧ emptyFinding.failures = [])
      ∧ outputResult sampleOpts emptyFinding = [findingLabel emptyFinding, ""]
      ∧ outputResult sampleVerboseOpts emptyFinding =
          [findingLabel emptyFinding, chalkBold "\nDetails:" ++ " " ++ "undefined", ""] :=
  ⟨⟨rfl, rfl⟩,
    (claim9_minimal_finding_rendering sampleOpts emptyFinding rfl rfl).1 rfl,
    (claim9_minimal_finding_rendering sampleVerboseOpts emptyFinding rfl rfl).2.1 rfl⟩
